import Mathlib

/-!
Shallow embedding of the air-quality dashboard (src/app.py).

Tables are lists of typed rows.  A pandas `NaN` / `NaT` cell is modelled as
`none`.  Numeric values are rationals (the floating-point representation is
abstracted away; all arithmetic is exact).  Dates are calendar triples ordered
by their `yyyymmdd` key, which coincides with chronological order on calendar
dates.  A pandas operation that would raise is modelled by an `Option` result
whose `none` value marks the exception.
-/

namespace AirQuality

/-- Lexicographic comparison of character lists by code point.  This is the
order in which Python compares strings, hence the order `sorted` and pandas
`groupby` use for string keys. -/
def strLexLe : List Char → List Char → Bool
  | [], _ => true
  | _ :: _, [] => false
  | a :: as, b :: bs =>
      if a.toNat < b.toNat then true
      else if b.toNat < a.toNat then false
      else strLexLe as bs

/-- Python string comparison, as a Bool-valued total preorder. -/
def strLe (a b : String) : Bool := strLexLe a.data b.data

/-- Insert an element into a list in front of the first element it compares
less-or-equal to.  Used by `sortBy`. -/
def insertS (le : α → α → Bool) (x : α) : List α → List α
  | [] => [x]
  | y :: ys => if le x y then x :: y :: ys else y :: insertS le x ys

/-- Stable insertion sort.  Models the deterministic orderings the source
relies on: `sorted(...)`, pandas `groupby` key order and `sort_values`.
Ties keep their input order, which for the properties proved below is
interchangeable with the orders pandas produces. -/
def sortBy (le : α → α → Bool) : List α → List α
  | [] => []
  | x :: xs => insertS le x (sortBy le xs)

/-- Python `int()` applied to a number: truncation toward zero. -/
def pyTrunc (q : ℚ) : ℤ := if q < 0 then -⌊-q⌋ else ⌊q⌋

/-- Round to the nearest integer, ties to the even integer (the rounding used
by Python `round`). -/
def roundHalfEven (q : ℚ) : ℤ :=
  let f := ⌊q⌋
  if q - f < 1 / 2 then f
  else if q - f > 1 / 2 then f + 1
  else if f % 2 = 0 then f else f + 1

/-- Python `round(x, 2)` on an exact rational. -/
def pyRound2 (q : ℚ) : ℚ := (roundHalfEven (q * 100) : ℚ) / 100

/-- Round half away from zero on nonnegative input.  This is the spec-side
reading of the word `round` in the spec color formula; it is compared with the
source truncation `pyTrunc`. -/
def specRound (q : ℚ) : ℤ := ⌊q + 1 / 2⌋

/-- Mean of a pandas numeric series with `skipna` semantics: `none` entries
(NaN) are ignored, and the mean of no values is NaN (`none`). -/
def seriesMean (l : List (Option ℚ)) : Option ℚ :=
  let vs := l.filterMap id
  if vs.isEmpty then none else some (vs.sum / vs.length)

/-- Sequence a list of options, failing on the first `none`.  Models a Python
list comprehension that raises when an element computation raises. -/
def optList : List (Option α) → Option (List α)
  | [] => some []
  | none :: _ => none
  | some x :: xs => (optList xs).map (fun l => x :: l)

/-- Calendar date as parsed by `pd.to_datetime`. -/
structure Date where
  y : Nat
  m : Nat
  d : Nat
deriving DecidableEq

/-- Numeric key giving chronological order on calendar dates. -/
def Date.key (dt : Date) : Nat := dt.y * 10000 + dt.m * 100 + dt.d

/-- Pad a numeral with leading zeros to the given width. -/
def padNum (w : Nat) (n : Nat) : String :=
  let s := toString n
  String.mk (List.replicate (w - s.length) '0') ++ s

/-- ISO rendering of a date, as produced by `.dt.strftime` with format
`%Y-%m-%d`. -/
def Date.iso (dt : Date) : String :=
  padNum 4 dt.y ++ "-" ++ padNum 2 dt.m ++ "-" ++ padNum 2 dt.d

/-- Row of the city-day table after loading and renaming: columns `city`,
`date`, `aqi`.  A date that failed `pd.to_datetime` is `none` (NaT); a missing
AQI reading is `none` (NaN). -/
structure CityRow where
  city : String
  date : Option Date
  aqi : Option ℚ
deriving DecidableEq

/-- Row of the station-day table after loading and renaming: columns
`station`, `date`, `aqi`. -/
structure StationRow where
  station : String
  date : Option Date
  aqi : Option ℚ
deriving DecidableEq

/-- Row of the risk-scores table: columns `city` and
`linearregression_risk_score`. -/
structure RiskRow where
  city : String
  score : ℚ
deriving DecidableEq

/-- Raw tabular file content: a header line and data rows. -/
structure Table where
  cols : List String
  rows : List (List String)
deriving DecidableEq

/-- Apply a column rename map, leaving unmapped names unchanged. -/
def renameCol (renameMap : List (String × String)) (c : String) : String :=
  (renameMap.lookup c).getD c

/-- Embedding of `load_csv_safe` (src/app.py lines 17-25).  The filesystem is
abstracted as a partial map from paths to file contents; `none` models a path
for which `os.path.exists` is false.  The second component records whether the
warning was printed.  On a missing file the source returns `pd.DataFrame()`,
an empty frame with no columns at all.  Otherwise headers are stripped of
whitespace and then renamed. -/
def load_csv_safe (fs : String → Option Table) (path : String)
    (renameMap : List (String × String)) : Table × Bool :=
  match fs path with
  | none => (⟨[], []⟩, true)
  | some t => (⟨t.cols.map (fun c => renameCol renameMap c.trim), t.rows⟩, false)

/-- Membership test of the inclusive date range (src/app.py lines 53-54 and
59-60).  A NaT date compares false on both bounds in pandas, so such rows are
excluded. -/
def dateInRange (d : Option Date) (s e : Date) : Bool :=
  match d with
  | none => false
  | some dd => s.key ≤ dd.key && dd.key ≤ e.key

/-- Embedding of the city-day filter (src/app.py lines 49-54): on a non-empty
table, an exact city match unless the selection is `"All"`, then the inclusive
date range. -/
def filterCityDay (base : List CityRow) (selectedCity : String) (s e : Date) :
    List CityRow :=
  if base.isEmpty then base
  else
    let byCity := if selectedCity ≠ "All"
      then base.filter (fun r => r.city == selectedCity) else base
    byCity.filter (fun r => dateInRange r.date s e)

/-- Embedding of the station-day filter (src/app.py lines 57-60): the date
range only. -/
def filterStationDay (base : List StationRow) (s e : Date) : List StationRow :=
  if base.isEmpty then base
  else base.filter (fun r => dateInRange r.date s e)

/-- Metric `num_cities` (src/app.py line 63): `nunique` of the city column of
the filtered table, 0 on an empty table. -/
def num_cities (f : List CityRow) : Nat :=
  if f.isEmpty then 0 else (f.map (fun r => r.city)).dedup.length

/-- Metric `num_stations` (src/app.py line 64). -/
def num_stations (f : List StationRow) : Nat :=
  if f.isEmpty then 0 else (f.map (fun r => r.station)).dedup.length

/-- Metric `avg_aqi` (src/app.py line 65): `round(mean, 2)` of the aqi column
on a non-empty filtered table, 0 otherwise.  The pandas mean skips NaN and is
itself NaN (`none`) when no value remains. -/
def avg_aqi (f : List CityRow) : Option ℚ :=
  if f.isEmpty then some 0
  else (seriesMean (f.map (fun r => r.aqi))).map pyRound2

/-- Distinct city keys of a table in the ascending order pandas `groupby`
produces. -/
def cityKeys (f : List CityRow) : List String :=
  sortBy strLe (f.map (fun r => r.city)).dedup

/-- Embedding of `groupby("city")["aqi"].mean()` (src/app.py lines 69 and
79): per-city NaN-skipping mean, keyed in ascending city order. -/
def groupMeanCity (f : List CityRow) : List (String × Option ℚ) :=
  (cityKeys f).map
    (fun c => (c, seriesMean ((f.filter (fun r => r.city == c)).map (fun r => r.aqi))))

/-- Embedding of `Series.idxmax`: the first key, in index order, whose value
attains the maximum among non-NaN values; `none` when every value is NaN (the
source raises there). -/
def idxmaxOpt (l : List (String × Option ℚ)) : Option String :=
  match l.filterMap (fun p => p.2.map (fun v => (p.1, v))) with
  | [] => none
  | kv :: rest =>
      some ((rest.foldl (fun acc p => if acc.2 < p.2 then p else acc) kv).1)

/-- Ascending date order on city rows, NaT last, as `sort_values('date')`
orders rows. -/
def rowDateLe (a b : CityRow) : Bool :=
  match a.date, b.date with
  | none, none => true
  | none, some _ => false
  | some _, none => true
  | some x, some y => x.key ≤ y.key

/-- Rows feeding the trend arrays for a given top city (src/app.py lines
70-71): the rows of that city sorted ascending by date, then the LAST 30 of
them, and only then the rows with a null AQI dropped. -/
def trendRows (f : List CityRow) (top : String) : List CityRow :=
  let sorted := sortBy rowDateLe (f.filter (fun r => r.city == top))
  let tailed := sorted.drop (sorted.length - 30)
  tailed.filter (fun r => r.aqi.isSome)

/-- Trend date strings (src/app.py line 72).  On a NaT date `strftime`
yields NaN, which `.tolist()` keeps as a non-date placeholder entry. -/
def trend_dates (f : List CityRow) (top : String) : List String :=
  (trendRows f top).map (fun r => match r.date with
    | some d => d.iso
    | none => "NaN")

/-- Trend AQI values (src/app.py line 73). -/
def trend_values (f : List CityRow) (top : String) : List ℚ :=
  (trendRows f top).filterMap (fun r => r.aqi)

/-- Embedding of the trend block body (src/app.py lines 69-73), entered when
the filtered table is non-empty.  The result is `none` exactly when
`idxmax` raises because every per-city mean is NaN. -/
def trendOf (f : List CityRow) : Option (List String × List ℚ) :=
  match idxmaxOpt (groupMeanCity f) with
  | none => none
  | some top => some (trend_dates f top, trend_values f top)

/-- Descending order on per-city means with NaN last, as
`sort_values("aqi", ascending=False)` orders the heatmap frame. -/
def heatDescLe (a b : String × Option ℚ) : Bool :=
  match a.2, b.2 with
  | some x, some y => y ≤ x
  | some _, none => true
  | none, some _ => false
  | none, none => true

/-- Heatmap frame (src/app.py line 79): per-city means sorted descending. -/
def heatmapEntries (f : List CityRow) : List (String × Option ℚ) :=
  sortBy heatDescLe (groupMeanCity f)

/-- Heatmap city names (src/app.py line 80). -/
def heatmap_cities (f : List CityRow) : List String :=
  (heatmapEntries f).map (fun p => p.1)

/-- Heatmap values (src/app.py line 81); an all-null city contributes a NaN
entry. -/
def heatmap_values (f : List CityRow) : List (Option ℚ) :=
  (heatmapEntries f).map (fun p => p.2)

/-- Python `max` over a list of possibly-NaN floats: the running maximum is
replaced only when a comparison succeeds, so a leading NaN is sticky.  The
empty case takes the literal 1 from the guard (src/app.py line 82). -/
def pyMax2 (acc x : Option ℚ) : Option ℚ :=
  match acc, x with
  | some a, some b => if a < b then some b else some a
  | some a, none => some a
  | none, _ => none

/-- Embedding of `max_aqi = max(heatmap_values) if heatmap_values else 1`. -/
def maxAqiOf (vals : List (Option ℚ)) : Option ℚ :=
  match vals with
  | [] => some 1
  | x :: xs => xs.foldl pyMax2 x

/-- RGBA color string literal as built on src/app.py line 83. -/
def rgbaStr (r g : ℤ) : String := s!"rgba({r}, {g}, 0, 0.8)"

/-- Color of one heatmap value (src/app.py line 83): components are Python
`int(...)` truncations, not roundings. -/
def colorOf (maxAqi v : ℚ) : String :=
  rgbaStr (pyTrunc (v / maxAqi * 255)) (pyTrunc ((1 - v / maxAqi) * 255))

/-- Embedding of the heatmap color list (src/app.py lines 82-83).  The result
is `none` when the computation raises: a NaN maximum or a NaN value makes
`int(...)` raise.  (The source would also raise on a maximum of exactly zero;
rational division by zero silently yields 0 here, and the theorems below
assume a positive maximum.) -/
def heatmap_colors (f : List CityRow) : Option (List String) :=
  match maxAqiOf (heatmap_values f) with
  | none => none
  | some m => optList ((heatmap_values f).map (fun v => v.map (colorOf m)))

/-- Distinct station keys in ascending pandas `groupby` order. -/
def stationKeys (f : List StationRow) : List String :=
  sortBy strLe (f.map (fun r => r.station)).dedup

/-- Embedding of the station aggregation frame (src/app.py line 89): per
station, the count of non-null AQI values and their NaN-skipping mean, keyed
in ascending station order. -/
def stationAgg (f : List StationRow) : List (String × Nat × Option ℚ) :=
  (stationKeys f).map (fun k =>
    let vs := (f.filter (fun r => r.station == k)).map (fun r => r.aqi)
    (k, (vs.filterMap id).length, seriesMean vs))

/-- Station names array (src/app.py line 90), with the surrounding emptiness
guard of line 88. -/
def stations_names (f : List StationRow) : List String :=
  if f.isEmpty then [] else (stationAgg f).map (fun t => t.1)

/-- Station mean-AQI array (src/app.py line 91), with the guard of line 88. -/
def stations_avg (f : List StationRow) : List (Option ℚ) :=
  if f.isEmpty then [] else (stationAgg f).map (fun t => t.2.2)

/-- Policy tier lambda of src/app.py line 98. -/
def tierOf (x : ℚ) : String :=
  if x > 300 then "Severe"
  else if x > 200 then "High"
  else if x > 150 then "Moderate"
  else "Low"

/-- Descending score order for the risk frame (src/app.py line 99). -/
def scoreDescLe (a b : RiskRow × String) : Bool := b.1.score ≤ a.1.score

/-- Embedding of the risk frame (src/app.py lines 97-99): each row paired
with its policy tier, sorted descending by score. -/
def risksDf (rs : List RiskRow) : List (RiskRow × String) :=
  sortBy scoreDescLe (rs.map (fun r => (r, tierOf r.score)))

/-- Pairs `(city, tier)` of src/app.py line 100, with the guard of line 96. -/
def risks_list (rs : List RiskRow) : List (String × String) :=
  if rs.isEmpty then [] else (risksDf rs).map (fun p => (p.1.city, p.2))

/-- City names of src/app.py line 101, with the guard of line 96. -/
def risks_names (rs : List RiskRow) : List String :=
  if rs.isEmpty then [] else (risksDf rs).map (fun p => p.1.city)

/-- Scores of src/app.py line 102, with the guard of line 96. -/
def risks_values (rs : List RiskRow) : List ℚ :=
  if rs.isEmpty then [] else (risksDf rs).map (fun p => p.1.score)

/-- City dropdown list (src/app.py line 107): `"All"` followed by the sorted
distinct cities of the unfiltered table, or `["All"]` alone when it is
empty. -/
def cities_list (base : List CityRow) : List String :=
  if base.isEmpty then ["All"]
  else "All" :: sortBy strLe (base.map (fun r => r.city)).dedup

/-- Request parameters reaching the filter (src/app.py lines 44-46) after the
boundary layer parsed the date strings. -/
structure FilterReq where
  city : String
  startDate : Date
  endDate : Date
deriving DecidableEq

/-- Module-level tables loaded at process start (src/app.py lines 28-31). -/
structure State where
  city_day : List CityRow
  station_day : List StationRow
  risk_scores : List RiskRow
deriving DecidableEq

/-- Values handed to `render_template` (src/app.py lines 109-127).  The two
`Option`-typed fields are `none` when the block that computes them raises. -/
structure Bundle where
  num_cities : Nat
  num_stations : Nat
  avg_aqi : Option ℚ
  trend : Option (List String × List ℚ)
  heatmap_cities : List String
  heatmap_values : List (Option ℚ)
  heatmap_colors : Option (List String)
  stations_names : List String
  stations_avg : List (Option ℚ)
  risks_list : List (String × String)
  risks_names : List String
  risks_values : List ℚ
  cities_list : List String
  selected_city : String
deriving DecidableEq

/-- Embedding of the route handler `dashboard` (src/app.py lines 41-127).
The handler reads the module-level tables, builds filtered views with
`.copy()` and boolean masks, and assembles the template context.  The second
component of the result is the value of the module-level tables when the
handler returns: the source never rebinds or mutates them, so the state is
passed through unchanged. -/
def dashboard (st : State) (req : FilterReq) : Bundle × State :=
  let f := filterCityDay st.city_day req.city req.startDate req.endDate
  let g := filterStationDay st.station_day req.startDate req.endDate
  (⟨num_cities f,
    num_stations g,
    avg_aqi f,
    if f.isEmpty then some ([], []) else trendOf f,
    if f.isEmpty then [] else heatmap_cities f,
    if f.isEmpty then [] else heatmap_values f,
    if f.isEmpty then some [] else heatmap_colors f,
    stations_names g,
    stations_avg g,
    risks_list st.risk_scores,
    risks_names st.risk_scores,
    risks_values st.risk_scores,
    cities_list st.city_day,
    req.city⟩,
   st)

/-! Concrete inputs used to settle the claims on explicit data. -/

/-- Rename map of the city-day table (src/app.py line 28). -/
def cityRenameMap : List (String × String) :=
  [("City", "city"), ("Date", "date"), ("AQI", "aqi")]

/-- Filesystem on which no path exists. -/
def fsMissing : String → Option Table := fun _ => none

/-- Risk table row with the boundary score 150. -/
def c2row : RiskRow := ⟨"X", 150⟩

/-- Risk table row with the boundary score 300. -/
def c3row : RiskRow := ⟨"D", 300⟩

/-- City-day rows whose top city has exactly 30 non-null AQI readings (Jan 1
to Jan 30) followed by one null reading dated Feb 1, which falls inside the
trailing 30-row window. -/
def c1rows : List CityRow :=
  (List.range 30).map (fun i => ⟨"A", some ⟨2024, 1, i + 1⟩, some 100⟩) ++
    [⟨"A", some ⟨2024, 2, 1⟩, none⟩]

/-- One-row city-day table used to instantiate the trend theorem. -/
def c1wrows : List CityRow := [⟨"A", some ⟨2024, 1, 1⟩, some 100⟩]

/-- Two-city table whose per-city means are 7 and 4, so the second heatmap
color channel computes 255 times 4/7, a value on which truncation and
rounding disagree. -/
def c5rows : List CityRow :=
  [⟨"A", some ⟨2024, 1, 1⟩, some 7⟩, ⟨"B", some ⟨2024, 1, 1⟩, some 4⟩]

/-- State used to instantiate the inverted-date-range theorem. -/
def c6state : State :=
  ⟨[⟨"A", some ⟨2024, 1, 1⟩, some 50⟩],
   [⟨"S1", some ⟨2024, 1, 1⟩, some 60⟩],
   []⟩

/-- Request whose start date is after its end date. -/
def c6req : FilterReq := ⟨"All", ⟨2024, 5, 1⟩, ⟨2024, 1, 1⟩⟩

/-- City-day table of the end-to-end scenario in the spec: two cities, one
null AQI reading. -/
def c7rows : List CityRow :=
  [⟨"A", some ⟨2024, 1, 1⟩, some 400⟩,
   ⟨"A", some ⟨2024, 1, 2⟩, none⟩,
   ⟨"B", some ⟨2024, 1, 1⟩, some 100⟩]

/-- Unsorted two-city table for the dropdown theorem. -/
def c8rows : List CityRow :=
  [⟨"Delhi", some ⟨2024, 1, 1⟩, some 50⟩,
   ⟨"Agra", some ⟨2024, 1, 1⟩, some 60⟩,
   ⟨"Delhi", some ⟨2024, 1, 2⟩, some 70⟩]

/-- Station-day table with two stations in unsorted order, one of which has
only a null reading. -/
def c10rows : List StationRow :=
  [⟨"S2", some ⟨2024, 1, 1⟩, some 10⟩,
   ⟨"S1", some ⟨2024, 1, 1⟩, none⟩]

/-! Generic lemmas about the sorting helpers. -/

theorem insertS_perm (le : α → α → Bool) (x : α) :
    ∀ l : List α, (insertS le x l).Perm (x :: l)
  | [] => by simp [insertS]
  | y :: ys => by
      simp only [insertS]
      split
      · exact List.Perm.refl _
      · exact ((insertS_perm le x ys).cons y).trans (List.Perm.swap x y ys)

theorem sortBy_perm (le : α → α → Bool) : ∀ l : List α, (sortBy le l).Perm l
  | [] => List.Perm.refl _
  | x :: xs =>
      (insertS_perm le x (sortBy le xs)).trans ((sortBy_perm le xs).cons x)

theorem insertS_pairwise (le : α → α → Bool)
    (htrans : ∀ a b c, le a b = true → le b c = true → le a c = true)
    (htot : ∀ a b, (le a b || le b a) = true) (x : α) :
    ∀ l : List α, l.Pairwise (fun a b => le a b = true) →
      (insertS le x l).Pairwise (fun a b => le a b = true)
  | [], _ => by simp [insertS]
  | y :: ys, h => by
      rcases List.pairwise_cons.mp h with ⟨hy, hys⟩
      simp only [insertS]
      by_cases hxy : le x y = true
      · rw [if_pos hxy]
        refine List.pairwise_cons.mpr ⟨?_, h⟩
        intro z hz
        rcases List.mem_cons.mp hz with rfl | hz2
        · exact hxy
        · exact htrans x y z hxy (hy z hz2)
      · rw [if_neg hxy]
        have hyx : le y x = true := by
          have := htot x y
          revert this hxy
          cases le x y <;> cases le y x <;> simp
        refine List.pairwise_cons.mpr
          ⟨?_, insertS_pairwise le htrans htot x ys hys⟩
        intro z hz
        have hz2 : z ∈ x :: ys := (insertS_perm le x ys).mem_iff.mp hz
        rcases List.mem_cons.mp hz2 with rfl | hz3
        · exact hyx
        · exact hy z hz3

theorem sortBy_pairwise (le : α → α → Bool)
    (htrans : ∀ a b c, le a b = true → le b c = true → le a c = true)
    (htot : ∀ a b, (le a b || le b a) = true) :
    ∀ l : List α, (sortBy le l).Pairwise (fun a b => le a b = true)
  | [] => by simp [sortBy]
  | x :: xs =>
      insertS_pairwise le htrans htot x (sortBy le xs)
        (sortBy_pairwise le htrans htot xs)

theorem strLexLe_total : ∀ a b : List Char, (strLexLe a b || strLexLe b a) = true
  | [], b => by simp [strLexLe]
  | a :: as, [] => by simp [strLexLe]
  | a :: as, b :: bs => by
      simp only [strLexLe]
      rcases Nat.lt_trichotomy a.toNat b.toNat with h | h | h
      · simp [h]
      · simp only [h, Nat.lt_irrefl, if_false]
        exact strLexLe_total as bs
      · simp [h, Nat.lt_asymm h]

theorem strLexLe_trans :
    ∀ a b c : List Char, strLexLe a b = true → strLexLe b c = true →
      strLexLe a c = true
  | [], _, _, _, _ => by simp [strLexLe]
  | a :: as, [], _, h1, _ => by simp [strLexLe] at h1
  | a :: as, b :: bs, [], _, h2 => by simp [strLexLe] at h2
  | a :: as, b :: bs, c :: cs, h1, h2 => by
      simp only [strLexLe] at h1 h2 ⊢
      split_ifs at h1 h2 ⊢ <;>
        first
          | rfl
          | omega
          | (exact strLexLe_trans as bs cs h1 h2)

theorem strLe_total (a b : String) : (strLe a b || strLe b a) = true :=
  strLexLe_total a.data b.data

theorem strLe_trans (a b c : String) (h1 : strLe a b = true)
    (h2 : strLe b c = true) : strLe a c = true :=
  strLexLe_trans a.data b.data c.data h1 h2

theorem filterMap_aqi_length :
    ∀ l : List CityRow, (∀ r ∈ l, r.aqi.isSome) →
      (l.filterMap (fun r => r.aqi)).length = l.length
  | [], _ => rfl
  | r :: rs, h => by
      have hr : r.aqi.isSome := h r (List.mem_cons_self r rs)
      rcases Option.isSome_iff_exists.mp hr with ⟨v, hv⟩
      simp only [List.filterMap_cons, hv, List.length_cons]
      rw [filterMap_aqi_length rs (fun x hx => h x (List.mem_cons_of_mem r hx))]

theorem optList_map_some (g : α → β) :
    ∀ l : List (Option α), (∀ v ∈ l, v.isSome) →
      optList (l.map (fun v => v.map g)) =
        some (l.filterMap (fun v => v.map g))
  | [], _ => rfl
  | none :: vs, h => by
      simpa using h none (List.mem_cons_self none vs)
  | some x :: vs, h => by
      simp only [List.map_cons, Option.map_some, optList, List.filterMap_cons]
      rw [optList_map_some g vs (fun w hw => h w (List.mem_cons_of_mem _ hw))]
      rfl

/-! Claim theorems. -/

/-- C9: for every request, the dashboard handler leaves the shared unfiltered
base tables unchanged; the filter stage only ever selects rows out of a base
table (it is a sub-list of the base), never mutating it in place. -/
theorem C9_filter_does_not_mutate_base (st : State) (req : FilterReq) :
    (dashboard st req).2 = st ∧
    (filterCityDay st.city_day req.city req.startDate req.endDate).Sublist
      st.city_day ∧
    (filterStationDay st.station_day req.startDate req.endDate).Sublist
      st.station_day := by
  refine ⟨rfl, ?_, ?_⟩
  · unfold filterCityDay
    split
    · exact List.Sublist.refl _
    · dsimp only
      split
      · exact (List.filter_sublist _).trans (List.filter_sublist _)
      · exact List.filter_sublist _
  · unfold filterStationDay
    split
    · exact List.Sublist.refl _
    · exact List.filter_sublist _

/-- C6: whenever the requested start date is after the end date, both
filtered tables are empty and the bundle reports zero cities, zero stations
and an average AQI of 0, with no error. -/
theorem C6_inverted_range_all_empty (st : State) (req : FilterReq)
    (h : req.endDate.key < req.startDate.key) :
    filterCityDay st.city_day req.city req.startDate req.endDate = [] ∧
    filterStationDay st.station_day req.startDate req.endDate = [] ∧
    (dashboard st req).1.num_cities = 0 ∧
    (dashboard st req).1.num_stations = 0 ∧
    (dashboard st req).1.avg_aqi = some 0 := by
  have hr : ∀ d : Option Date,
      dateInRange d req.startDate req.endDate = false := by
    intro d
    cases d with
    | none => rfl
    | some dd =>
        simp only [dateInRange, Bool.and_eq_false_iff,
          decide_eq_false_iff_not, not_le]
        omega
  have hcf : filterCityDay st.city_day req.city req.startDate req.endDate
      = [] := by
    unfold filterCityDay
    split
    · next hEmpty => exact List.isEmpty_iff.mp hEmpty
    · exact List.filter_eq_nil_iff.mpr (fun a _ => by simp [hr a.date])
  have hsf : filterStationDay st.station_day req.startDate req.endDate
      = [] := by
    unfold filterStationDay
    split
    · next hEmpty => exact List.isEmpty_iff.mp hEmpty
    · exact List.filter_eq_nil_iff.mpr (fun a _ => by simp [hr a.date])
  refine ⟨hcf, hsf, ?_, ?_, ?_⟩ <;>
    simp [dashboard, hcf, hsf, num_cities, num_stations, avg_aqi]

/-- C6 witness: instantiation of the inverted-range theorem on a concrete
state and request. -/
theorem C6_witness :
    filterCityDay c6state.city_day c6req.city c6req.startDate c6req.endDate
      = [] ∧
    filterStationDay c6state.station_day c6req.startDate c6req.endDate = [] ∧
    (dashboard c6state c6req).1.num_cities = 0 ∧
    (dashboard c6state c6req).1.num_stations = 0 ∧
    (dashboard c6state c6req).1.avg_aqi = some 0 :=
  C6_inverted_range_all_empty c6state c6req (by decide)

/-- C7: the average AQI of an empty filtered table is 0; on a non-empty
filtered table with at least one non-null AQI value it is the arithmetic mean
of the non-null values of the aqi column, rounded to two decimal places. -/
theorem C7_avg_aqi_is_rounded_mean (f : List CityRow) :
    (f = [] → avg_aqi f = some 0) ∧
    (f ≠ [] → (f.map (fun r => r.aqi)).filterMap id ≠ [] →
      avg_aqi f =
        some (pyRound2 (((f.map (fun r => r.aqi)).filterMap id).sum /
          ((f.map (fun r => r.aqi)).filterMap id).length))) := by
  constructor
  · rintro rfl
    rfl
  · intro hne hvs
    have h1 : f.isEmpty = false := by
      cases f with
      | nil => exact absurd rfl hne
      | cons a l => rfl
    have h2 : ((f.map (fun r => r.aqi)).filterMap id).isEmpty = false := by
      cases hcase : (f.map (fun r => r.aqi)).filterMap id with
      | nil => exact absurd hcase hvs
      | cons a l => rfl
    simp only [avg_aqi, h1, Bool.false_eq_true, if_false, seriesMean, h2]
    rfl

/-- C7 witness: the rounded mean on the three-row scenario table, whose
non-null AQI values are 400 and 100; the rounded mean evaluates to 250. -/
theorem C7_witness :
    avg_aqi c7rows =
      some (pyRound2 (((c7rows.map (fun r => r.aqi)).filterMap id).sum /
        ((c7rows.map (fun r => r.aqi)).filterMap id).length)) ∧
    pyRound2 (((c7rows.map (fun r => r.aqi)).filterMap id).sum /
        ((c7rows.map (fun r => r.aqi)).filterMap id).length) = 250 := by
  constructor
  · exact (C7_avg_aqi_is_rounded_mean c7rows).2 (by decide) (by decide)
  · simp only [c7rows, List.map_cons, List.map_nil, List.filterMap_cons,
      List.filterMap_nil, id]
    norm_num [pyRound2, roundHalfEven]

/-- C4 counterexample: on a missing file the source returns an empty frame
with NO columns at all, so the expected renamed city-day columns are absent,
refuting the claim that the empty table still carries them. -/
theorem C4_counterexample :
    (load_csv_safe fsMissing "city_day.csv" cityRenameMap).1.cols = [] ∧
    "city" ∉ (load_csv_safe fsMissing "city_day.csv" cityRenameMap).1.cols ∧
    (load_csv_safe fsMissing "city_day.csv" cityRenameMap).2 = true := by
  exact ⟨rfl, by decide, rfl⟩

/-- C4 amended: for every path missing from the filesystem, the loader
returns an empty table with zero rows and zero columns, emits the warning,
and does not raise. -/
theorem C4_missing_file_empty_table (fs : String → Option Table)
    (path : String) (rm : List (String × String)) (h : fs path = none) :
    load_csv_safe fs path rm = (⟨[], []⟩, true) := by
  unfold load_csv_safe
  rw [h]

/-- C4 witness: instantiation of the missing-file theorem on a concrete
filesystem and path. -/
theorem C4_witness :
    load_csv_safe fsMissing "city_day.csv" cityRenameMap = (⟨[], []⟩, true) :=
  C4_missing_file_empty_table fsMissing "city_day.csv" cityRenameMap rfl

/-- C2 counterexample: a risk row whose score is exactly 150 is assigned the
tier "Low" by the source, not "Moderate" as the claim states. -/
theorem C2_counterexample :
    risksDf [c2row] = [(c2row, "Low")] ∧ ("Low" : String) ≠ "Moderate" := by
  constructor
  · have ht : tierOf c2row.score = "Low" := by
      norm_num [c2row, tierOf]
    simp [risksDf, sortBy, insertS, ht]
  · decide

/-- C2 amended: in the risk classification, a row whose risk score is exactly
150 is assigned the tier "Low" (the Moderate rule is strictly
greater-than). -/
theorem C2_score_150_is_low (rs : List RiskRow) (pr : RiskRow × String)
    (hmem : pr ∈ risksDf rs) (h150 : pr.1.score = 150) : pr.2 = "Low" := by
  have hm2 : pr ∈ rs.map (fun r => (r, tierOf r.score)) :=
    (sortBy_perm scoreDescLe _).mem_iff.mp hmem
  rcases List.mem_map.mp hm2 with ⟨r, hr, rfl⟩
  have hs : r.score = 150 := h150
  show tierOf r.score = "Low"
  rw [hs]
  norm_num [tierOf]

/-- C2 witness: instantiation of the amended boundary theorem on a concrete
one-row risk table with score 150. -/
theorem C2_witness : ((c2row, tierOf c2row.score) : RiskRow × String).2 = "Low" :=
  C2_score_150_is_low [c2row] (c2row, tierOf c2row.score)
    (by simp [risksDf, sortBy, insertS]) rfl

/-- C3: every row of the risk frame carries a tier that is a pure function of
its score: "Severe" iff the score exceeds 300, "High" iff it lies in
(200, 300], "Moderate" iff it lies in (150, 200], and "Low" iff it is at most
150; in particular a score of exactly 300 yields "High". -/
theorem C3_tier_thresholds (rs : List RiskRow) (pr : RiskRow × String)
    (hmem : pr ∈ risksDf rs) :
    (pr.2 = "Severe" ↔ 300 < pr.1.score) ∧
    (pr.2 = "High" ↔ 200 < pr.1.score ∧ pr.1.score ≤ 300) ∧
    (pr.2 = "Moderate" ↔ 150 < pr.1.score ∧ pr.1.score ≤ 200) ∧
    (pr.2 = "Low" ↔ pr.1.score ≤ 150) := by
  have hm2 : pr ∈ rs.map (fun r => (r, tierOf r.score)) :=
    (sortBy_perm scoreDescLe _).mem_iff.mp hmem
  rcases List.mem_map.mp hm2 with ⟨r, hr, rfl⟩
  show (tierOf r.score = "Severe" ↔ _) ∧ (tierOf r.score = "High" ↔ _) ∧
    (tierOf r.score = "Moderate" ↔ _) ∧ (tierOf r.score = "Low" ↔ _)
  unfold tierOf
  split_ifs with h1 h2 h3
  · exact ⟨⟨fun _ => h1, fun _ => rfl⟩,
      ⟨fun hh => absurd hh (by decide), fun hh => absurd hh.2 (not_le.mpr h1)⟩,
      ⟨fun hh => absurd hh (by decide),
        fun hh => absurd hh.2 (not_le.mpr (by linarith))⟩,
      ⟨fun hh => absurd hh (by decide),
        fun hh => absurd hh (not_le.mpr (by linarith))⟩⟩
  · exact ⟨⟨fun hh => absurd hh (by decide), fun hh => absurd hh h1⟩,
      ⟨fun _ => ⟨h2, not_lt.mp h1⟩, fun _ => rfl⟩,
      ⟨fun hh => absurd hh (by decide),
        fun hh => absurd hh.2 (not_le.mpr h2)⟩,
      ⟨fun hh => absurd hh (by decide),
        fun hh => absurd hh (not_le.mpr (by linarith))⟩⟩
  · exact ⟨⟨fun hh => absurd hh (by decide), fun hh => absurd hh h1⟩,
      ⟨fun hh => absurd hh (by decide), fun hh => absurd hh.1 h2⟩,
      ⟨fun _ => ⟨h3, not_lt.mp h2⟩, fun _ => rfl⟩,
      ⟨fun hh => absurd hh (by decide),
        fun hh => absurd hh (not_le.mpr h3)⟩⟩
  · exact ⟨⟨fun hh => absurd hh (by decide), fun hh => absurd hh h1⟩,
      ⟨fun hh => absurd hh (by decide), fun hh => absurd hh.1 h2⟩,
      ⟨fun hh => absurd hh (by decide), fun hh => absurd hh.1 h3⟩,
      ⟨fun _ => not_lt.mp h3, fun _ => rfl⟩⟩

/-- C3 witness: on a one-row table with the boundary score 300, the assigned
tier is "High", not "Severe". -/
theorem C3_witness :
    (((c3row, tierOf c3row.score) : RiskRow × String).2 = "High" ↔
      200 < c3row.score ∧ c3row.score ≤ 300) ∧
    tierOf c3row.score = "High" := by
  constructor
  · exact (C3_tier_thresholds [c3row] (c3row, tierOf c3row.score)
      (by simp [risksDf, sortBy, insertS])).2.1
  · norm_num [c3row, tierOf]

/-- C8: the dropdown list always starts with "All"; its tail lists each
distinct city of the unfiltered city-day table exactly once, in ascending
string order; on an empty table the list is exactly ["All"]. -/
theorem C8_cities_list_shape (base : List CityRow) :
    (cities_list base).head? = some "All" ∧
    (cities_list base).tail.Pairwise (fun a b => strLe a b = true) ∧
    (cities_list base).tail.Nodup ∧
    (∀ c, c ∈ (cities_list base).tail ↔ c ∈ base.map (fun r => r.city)) ∧
    (base = [] → cities_list base = ["All"]) := by
  cases base with
  | nil => simp [cities_list]
  | cons r rs =>
      have hlist : cities_list (r :: rs) =
          "All" :: sortBy strLe ((r :: rs).map (fun x => x.city)).dedup := by
        simp [cities_list]
      rw [hlist]
      refine ⟨rfl, ?_, ?_, ?_, ?_⟩
      · exact sortBy_pairwise strLe strLe_trans strLe_total _
      · exact (sortBy_perm strLe _).nodup_iff.mpr (List.nodup_dedup _)
      · intro c
        simp only [List.tail_cons]
        exact (sortBy_perm strLe _).mem_iff.trans (List.mem_dedup)
      · intro h
        exact absurd h (by simp)

/-- C8 witness: on a concrete unsorted table with a duplicated city, the
dropdown head is "All" and a distinct city is listed in the tail. -/
theorem C8_witness :
    (cities_list c8rows).head? = some "All" ∧
    ("Agra" ∈ (cities_list c8rows).tail ↔
      "Agra" ∈ c8rows.map (fun r => r.city)) :=
  ⟨(C8_cities_list_shape c8rows).1,
    (C8_cities_list_shape c8rows).2.2.2.1 "Agra"⟩

/-- C10: on a non-empty filtered station-day table the station ranking is
keyed in ascending station-name order, the names and averages arrays have the
same length, and the average at each index is the NaN-skipping mean of the
aqi values of the rows of the station named at that index. -/
theorem C10_station_ranking_order_and_means (f : List StationRow)
    (hne : f ≠ []) :
    (stations_names f).Pairwise (fun a b => strLe a b = true) ∧
    (stations_avg f).length = (stations_names f).length ∧
    (∀ (i : ℕ) (k : String), (stations_names f)[i]? = some k →
      (stations_avg f)[i]? =
        some (seriesMean
          ((f.filter (fun r => r.station == k)).map (fun r => r.aqi)))) := by
  have hE : f.isEmpty = false := by
    cases f with
    | nil => exact absurd rfl hne
    | cons a l => rfl
  have hnames : stations_names f = stationKeys f := by
    simp [stations_names, hE, stationAgg, List.map_map, Function.comp_def]
  have havg : stations_avg f =
      (stationKeys f).map (fun k =>
        seriesMean ((f.filter (fun r => r.station == k)).map (fun r => r.aqi))) := by
    simp [stations_avg, hE, stationAgg, List.map_map, Function.comp_def]
  refine ⟨?_, ?_, ?_⟩
  · rw [hnames]
    exact sortBy_pairwise strLe strLe_trans strLe_total _
  · rw [hnames, havg]
    simp
  · intro i k hk
    rw [hnames] at hk
    rw [havg, List.getElem?_map, hk]
    rfl

/-- C10 witness: on a concrete two-station table the names come out in
ascending order, arrays have equal length, and the first average is the mean
of the rows of the first-named station. -/
theorem C10_witness :
    (stations_avg c10rows).length = (stations_names c10rows).length ∧
    (stations_avg c10rows)[0]? =
      some (seriesMean
        ((c10rows.filter (fun r => r.station == "S1")).map (fun r => r.aqi))) :=
  ⟨(C10_station_ranking_order_and_means c10rows (by decide)).2.1,
    (C10_station_ranking_order_and_means c10rows (by decide)).2.2 0 "S1"
      (by decide)⟩

/-- C1 counterexample: in `c1rows` the top city "A" has 30 rows with non-null
AQI in the filtered range, yet the source takes the trailing 30 rows BEFORE
dropping the null-AQI row, so the emitted trend arrays have 29 entries, not
30: the null row dated Feb 1 sits inside the trailing window and evicts the
row dated Jan 1. -/
theorem C1_counterexample :
    (c1rows.filter (fun r => r.city == "A" && r.aqi.isSome)).length = 30 ∧
    idxmaxOpt (groupMeanCity c1rows) = some "A" ∧
    (trendOf c1rows).map (fun p => p.2.length) = some 29 ∧
    (trendOf c1rows).map (fun p => p.1.length) = some 29 ∧
    (trendOf c1rows).map (fun p => p.2.length) ≠ some 30 := by
  decide

/-- C1 amended: the trend series for the top city is obtained by sorting that
city's rows ascending by date, keeping the LAST 30 rows, and only then
dropping the null-AQI rows; both arrays therefore have the common length of
the surviving window, which is at most 30 but can be smaller than 30 even
when the top city has at least 30 non-null-AQI rows in the filtered range. -/
theorem C1_trend_window_then_dropna (f : List CityRow) (top : String)
    (h : idxmaxOpt (groupMeanCity f) = some top) :
    trendOf f = some (trend_dates f top, trend_values f top) ∧
    (trend_values f top).length = (trendRows f top).length ∧
    (trend_dates f top).length = (trendRows f top).length ∧
    (trendRows f top).length ≤ 30 := by
  refine ⟨by simp [trendOf, h], ?_, by simp [trend_dates], ?_⟩
  · apply filterMap_aqi_length
    intro r hr
    have := List.mem_filter.mp hr
    exact this.2
  · simp only [trendRows]
    have h1 := List.length_filter_le (fun r => r.aqi.isSome)
      ((sortBy rowDateLe (f.filter (fun r => r.city == top))).drop
        ((sortBy rowDateLe (f.filter (fun r => r.city == top))).length - 30))
    rw [List.length_drop] at h1
    omega

/-- C1 witness: instantiation of the amended trend theorem on a one-row
table whose top city is "A". -/
theorem C1_witness :
    trendOf c1wrows = some (trend_dates c1wrows "A", trend_values c1wrows "A") ∧
    (trend_values c1wrows "A").length = (trendRows c1wrows "A").length ∧
    (trend_dates c1wrows "A").length = (trendRows c1wrows "A").length ∧
    (trendRows c1wrows "A").length ≤ 30 :=
  C1_trend_window_then_dropna c1wrows "A" (by decide)

theorem c5_keys : cityKeys c5rows = ["A", "B"] := by decide

theorem c5_filter_A :
    c5rows.filter (fun r => r.city == "A") =
      [⟨"A", some ⟨2024, 1, 1⟩, some 7⟩] := by
  simp [c5rows]

theorem c5_filter_B :
    c5rows.filter (fun r => r.city == "B") =
      [⟨"B", some ⟨2024, 1, 1⟩, some 4⟩] := by
  simp [c5rows]

theorem c5_gm : groupMeanCity c5rows = [("A", some 7), ("B", some 4)] := by
  rw [groupMeanCity, c5_keys]
  simp only [List.map_cons, List.map_nil, c5_filter_A, c5_filter_B]
  norm_num [seriesMean, List.filterMap_cons, List.filterMap_nil]

theorem c5_entries : heatmapEntries c5rows = [("A", some 7), ("B", some 4)] := by
  rw [heatmapEntries, c5_gm]
  norm_num [sortBy, insertS, heatDescLe]

theorem c5_vals : heatmap_values c5rows = [some 7, some 4] := by
  simp only [heatmap_values, c5_entries, List.map_cons, List.map_nil]

theorem c5_max : maxAqiOf (heatmap_values c5rows) = some 7 := by
  rw [c5_vals]
  norm_num [maxAqiOf, pyMax2]

theorem c5_color_A : colorOf 7 7 = "rgba(255, 0, 0, 0.8)" := by
  have h1 : pyTrunc ((7 : ℚ) / 7 * 255) = 255 := by norm_num [pyTrunc]
  have h2 : pyTrunc ((1 - (7 : ℚ) / 7) * 255) = 0 := by norm_num [pyTrunc]
  rw [colorOf, h1, h2]
  rfl

theorem c5_color_B : colorOf 7 4 = "rgba(145, 109, 0, 0.8)" := by
  have h1 : pyTrunc ((4 : ℚ) / 7 * 255) = 145 := by norm_num [pyTrunc]
  have h2 : pyTrunc ((1 - (4 : ℚ) / 7) * 255) = 109 := by norm_num [pyTrunc]
  rw [colorOf, h1, h2]
  rfl

theorem c5_colors : heatmap_colors c5rows =
    some ["rgba(255, 0, 0, 0.8)", "rgba(145, 109, 0, 0.8)"] := by
  have h : heatmap_colors c5rows =
      optList ((heatmap_values c5rows).map (fun v => v.map (colorOf 7))) := by
    simp only [heatmap_colors, c5_max]
  rw [h, c5_vals]
  simp only [List.map_cons, List.map_nil, Option.map_some, optList,
    c5_color_A, c5_color_B]
  rfl

/-- C5 counterexample: on the two-city table with means 7 and 4, the source
emits `rgba(145, 109, 0, 0.8)` for the value 4 (Python `int()` truncates
1020/7 to 145), while the claimed formula with rounding gives
`rgba(146, 109, 0, 0.8)`; the two strings differ, and the emitted channels
sum to 254, not 255. -/
theorem C5_counterexample :
    heatmap_values c5rows = [some 7, some 4] ∧
    maxAqiOf (heatmap_values c5rows) = some 7 ∧
    heatmap_colors c5rows =
      some ["rgba(255, 0, 0, 0.8)", "rgba(145, 109, 0, 0.8)"] ∧
    rgbaStr (specRound ((4 : ℚ) / 7 * 255))
        (specRound ((1 - (4 : ℚ) / 7) * 255)) = "rgba(146, 109, 0, 0.8)" ∧
    ("rgba(145, 109, 0, 0.8)" : String) ≠ "rgba(146, 109, 0, 0.8)" := by
  refine ⟨c5_vals, c5_max, c5_colors, ?_, by decide⟩
  have h1 : specRound ((4 : ℚ) / 7 * 255) = 146 := by norm_num [specRound]
  have h2 : specRound ((1 - (4 : ℚ) / 7) * 255) = 109 := by norm_num [specRound]
  rw [h1, h2]
  rfl

/-- C5 amended: when every per-city mean is defined, nonnegative and at most
the positive maximum, the color list is the value list mapped through the
color function, each color is `rgba(floor(255*v/max), floor(255*(1-v/max)),
0, 0.8)` (truncation, which on these nonnegative channels is the floor, not
rounding), and the two channels sum to 254 or 255. -/
theorem C5_color_channels (f : List CityRow) (m : ℚ)
    (hm : maxAqiOf (heatmap_values f) = some m) (hpos : 0 < m)
    (hall : ∀ v ∈ heatmap_values f, v.isSome)
    (hbd : ∀ x : ℚ, some x ∈ heatmap_values f → 0 ≤ x ∧ x ≤ m) :
    heatmap_colors f =
      some ((heatmap_values f).map (fun v => v.map (colorOf m))
        |>.filterMap id) ∧
    ∀ x : ℚ, some x ∈ heatmap_values f →
      colorOf m x = rgbaStr ⌊x / m * 255⌋ ⌊(1 - x / m) * 255⌋ ∧
      (⌊x / m * 255⌋ + ⌊(1 - x / m) * 255⌋ = 254 ∨
        ⌊x / m * 255⌋ + ⌊(1 - x / m) * 255⌋ = 255) := by
  constructor
  · have h : heatmap_colors f =
        optList ((heatmap_values f).map (fun v => v.map (colorOf m))) := by
      simp only [heatmap_colors, hm]
    rw [h]
    have h2 := optList_map_some (colorOf m) (heatmap_values f) hall
    rw [h2]
    congr 1
    simp [List.filterMap_map]
  · intro x hx
    obtain ⟨hx0, hxm⟩ := hbd x hx
    have ht0 : (0 : ℚ) ≤ x / m * 255 := by positivity
    have htle : x / m ≤ 1 := (div_le_one hpos).mpr hxm
    have ht1 : (0 : ℚ) ≤ (1 - x / m) * 255 := by nlinarith
    constructor
    · unfold colorOf pyTrunc
      rw [if_neg (not_lt.mpr ht0), if_neg (not_lt.mpr ht1)]
    · have h2 : (1 - x / m) * 255 = 255 - x / m * 255 := by ring
      rw [h2]
      have hfloor : ⌊(255 : ℚ) - x / m * 255⌋ = 255 - ⌈x / m * 255⌉ := by
        have h3 : ⌊((255 : ℤ) : ℚ) + (-(x / m * 255))⌋ =
            255 + ⌊-(x / m * 255)⌋ := Int.floor_int_add 255 _
        have h4 : ⌊-(x / m * 255)⌋ = -⌈x / m * 255⌉ := Int.floor_neg
        rw [h4] at h3
        have h5 : ((255 : ℤ) : ℚ) + (-(x / m * 255)) =
            (255 : ℚ) - x / m * 255 := by push_cast; ring
        rw [h5] at h3
        omega
      rw [hfloor]
      have hcl : ⌊x / m * 255⌋ ≤ ⌈x / m * 255⌉ := by
        have := (Int.floor_le (x / m * 255)).trans (Int.le_ceil (x / m * 255))
        exact_mod_cast this
      have hcu : ⌈x / m * 255⌉ ≤ ⌊x / m * 255⌋ + 1 := by
        apply Int.ceil_le.mpr
        push_cast
        exact (Int.lt_floor_add_one (x / m * 255)).le
      omega

/-- C5 witness: instantiation of the amended color theorem on the two-city
table, at the value 4 with maximum 7. -/
theorem C5_witness :
    heatmap_colors c5rows =
      some ((heatmap_values c5rows).map (fun v => v.map (colorOf 7))
        |>.filterMap id) ∧
    colorOf 7 4 = rgbaStr ⌊(4 : ℚ) / 7 * 255⌋ ⌊(1 - (4 : ℚ) / 7) * 255⌋ ∧
    (⌊(4 : ℚ) / 7 * 255⌋ + ⌊(1 - (4 : ℚ) / 7) * 255⌋ = 254 ∨
      ⌊(4 : ℚ) / 7 * 255⌋ + ⌊(1 - (4 : ℚ) / 7) * 255⌋ = 255) := by
  have hall : ∀ v ∈ heatmap_values c5rows, v.isSome := by
    rw [c5_vals]
    intro v hv
    rcases List.mem_cons.mp hv with rfl | hv2
    · rfl
    · rcases List.mem_cons.mp hv2 with rfl | hv3
      · rfl
      · exact absurd hv3 (List.not_mem_nil v)
  have hbd : ∀ x : ℚ, some x ∈ heatmap_values c5rows → 0 ≤ x ∧ x ≤ 7 := by
    rw [c5_vals]
    intro x hx
    rcases List.mem_cons.mp hx with h | h
    · rw [Option.some.injEq] at h
      subst h
      norm_num
    · rcases List.mem_cons.mp h with h2 | h2
      · rw [Option.some.injEq] at h2
        subst h2
        norm_num
      · exact absurd h2 (List.not_mem_nil _)
  obtain ⟨h1, h2⟩ := C5_color_channels c5rows 7 c5_max (by norm_num) hall hbd
  refine ⟨h1, h2 4 ?_⟩
  rw [c5_vals]
  exact List.mem_cons_of_mem _ (List.mem_cons_self _ _)
